import Mathlib

/-!
Shallow embedding of the DeepResearch-MCP server core
(`src/modules/validation.ts`, `src/modules/openai-client.ts`,
`src/modules/mcp-server.ts`), together with theorems settling the
claims about its specification.

Strings are modelled by Lean `String` (a list of characters); the
JavaScript string length (UTF-16 units) is modelled by the character
count, which agrees on all inputs relevant here.  JavaScript numbers
are modelled by `ℚ` (exact rationals); all constants appearing in the
code (0.02, 0.006, 0.2, 0.5) and the roundings performed are exactly
representable, so no claim below depends on binary floating-point
artifacts.
-/

/-- Character class of the JavaScript `\s` regex class and of
`String.prototype.trim`: ASCII whitespace, NEL-free Unicode space
separators, line/paragraph separators and the BOM. -/
def isJsWs (c : Char) : Bool :=
  c.val == 9 || c.val == 10 || c.val == 11 || c.val == 12 || c.val == 13 ||
  c.val == 32 || c.val == 0xa0 || c.val == 0x1680 ||
  (0x2000 ≤ c.val && c.val ≤ 0x200a) || c.val == 0x2028 || c.val == 0x2029 ||
  c.val == 0x202f || c.val == 0x205f || c.val == 0x3000 || c.val == 0xfeff

/-- Character class of the JavaScript `\w` regex class. -/
def isWordChar (c : Char) : Bool :=
  ('a' ≤ c && c ≤ 'z') || ('A' ≤ c && c ≤ 'Z') || ('0' ≤ c && c ≤ '9') || c == '_'

/-- Line terminators, which the JavaScript regex `.` does not match. -/
def isLineTerm (c : Char) : Bool :=
  c.val == 10 || c.val == 13 || c.val == 0x2028 || c.val == 0x2029

/-- Does `pat` (already lower-cased) match case-insensitively at the head
of `l`?  Implements anchored matching of a literal pattern under the
JavaScript `i` flag (ASCII case folding). -/
def startsWithCI : List Char → List Char → Bool
  | [], _ => true
  | _ :: _, [] => false
  | p :: ps, c :: cs => p == c.toLower && startsWithCI ps cs

/-- Does `pat` (already lower-cased) occur case-insensitively anywhere in
`l`?  Implements `/pat/i.test(s)`. -/
def containsCI (pat : List Char) : List Char → Bool
  | [] => startsWithCI pat []
  | c :: rest => startsWithCI pat (c :: rest) || containsCI pat rest

/-- Case-sensitive anchored match of a literal pattern. -/
def startsWithCS : List Char → List Char → Bool
  | [], _ => true
  | _ :: _, [] => false
  | p :: ps, c :: cs => p == c && startsWithCS ps cs

/-- Case-sensitive substring test. -/
def containsCS (pat : List Char) : List Char → Bool
  | [] => startsWithCS pat []
  | c :: rest => startsWithCS pat (c :: rest) || containsCS pat rest

/-- JavaScript `String.prototype.trim`. -/
def trimJs (l : List Char) : List Char :=
  ((l.dropWhile isJsWs).reverse.dropWhile isJsWs).reverse

/-- Helper for the tag-stripping regex: skip up to and including the
first `>` of the list, or fail when there is none (in which case the
regex `<[^>]*>` has no match starting at the preceding `<`). -/
def dropThroughGt : List Char → Option (List Char)
  | [] => none
  | c :: rest => if c = '>' then some rest else dropThroughGt rest

/-- Fuel-indexed worker for `removeTags`; structural recursion on the
fuel keeps the function kernel-reducible.  Every step consumes at
least one character, so fuel equal to the list length never runs
out. -/
def removeTagsFuel : Nat → List Char → List Char
  | 0, l => l
  | _, [] => []
  | fuel + 1, c :: rest =>
    if c = '<' then
      match dropThroughGt rest with
      | some rest' => removeTagsFuel fuel rest'
      | none => c :: removeTagsFuel fuel rest
    else c :: removeTagsFuel fuel rest

/-- JavaScript `s.replace(/<[^>]*>/g, '')`: each match starts at a `<`
and extends (greedily over non-`>` characters) to the first following
`>`; a `<` never followed by `>` matches nothing and is kept. -/
def removeTags (l : List Char) : List Char := removeTagsFuel l.length l

/-- Fuel-indexed worker for `replaceAllCI`. -/
def replaceAllCIFuel (pat : List Char) : Nat → List Char → List Char
  | 0, l => l
  | _, [] => []
  | fuel + 1, c :: rest =>
    if startsWithCI pat (c :: rest) then replaceAllCIFuel pat fuel (rest.drop (pat.length - 1))
    else c :: replaceAllCIFuel pat fuel rest

/-- JavaScript `s.replace(pat, '')` for a literal pattern with the `gi`
flags: scan left to right, removing each (case-insensitive,
non-overlapping) occurrence of `pat`, resuming the scan after the
removed occurrence. -/
def replaceAllCI (pat : List Char) (l : List Char) : List Char :=
  replaceAllCIFuel pat l.length l

/-- Fuel-indexed worker for `collapseWs`. -/
def collapseWsFuel : Nat → List Char → List Char
  | 0, l => l
  | _, [] => []
  | fuel + 1, c :: rest =>
    if isJsWs c then ' ' :: collapseWsFuel fuel (rest.dropWhile isJsWs)
    else c :: collapseWsFuel fuel rest

/-- JavaScript `s.replace(/\s+/g, ' ')`: collapse each maximal run of
whitespace into one space. -/
def collapseWs (l : List Char) : List Char := collapseWsFuel l.length l

/-- Embeds `ResearchRequestValidator.sanitizeQuery` (validation.ts):
strip HTML-like tags, strip `javascript:` and `data:text/html`
case-insensitively, trim, collapse whitespace runs to single spaces,
and hard-truncate to 2000 characters. -/
def sanitizeList (l : List Char) : List Char :=
  let s1 := removeTags l
  let s2 := replaceAllCI "javascript:".data s1
  let s3 := replaceAllCI "data:text/html".data s2
  let s4 := trimJs s3
  let s5 := collapseWs s4
  s5.take 2000

/-- String-level wrapper of `sanitizeList`, the embedding of
`sanitizeQuery`. -/
def sanitizeQuery (query : String) : String := ⟨sanitizeList query.data⟩

/-- Embeds the `ValidationError` record of `src/types`. -/
structure ValidationError where
  field : String
  message : String
  code : String
deriving DecidableEq, Repr

/-- Embeds the two accuracy levels accepted by `AccuracyLevelSchema`. -/
inductive AccuracyLevel where
  | high
  | medium
deriving DecidableEq, Repr

/-- Raw (pre-validation) request data, as received by
`validateResearchRequest`.  Absent optional fields are `none`. -/
structure RawRequest where
  research_query : String
  accuracy_level : String
  max_tokens : Option Int
  temperature : Option ℚ
  include_sources : Option Bool
  response_format : Option String
deriving DecidableEq, Repr

/-- Embeds the validated `DoDeepResearchRequest` produced by
`DoDeepResearchSchema.parse`. -/
structure DoDeepResearchRequest where
  research_query : String
  accuracy_level : AccuracyLevel
  max_tokens : Option Int
  temperature : Option ℚ
  include_sources : Bool
  response_format : String
deriving DecidableEq, Repr

/-- Issues raised by `ResearchQuerySchema` (Zod): min length 10, max
length 2000, the `^[^<>]*$` regex, then the `trim().length >= 10`
refinement (which Zod runs even when earlier checks marked the value
dirty, provided the value is a string). -/
def researchQueryIssues (q : String) : List ValidationError :=
  (if q.length < 10 then
    [⟨"research_query", "Research query must be at least 10 characters", "too_small"⟩] else [])
  ++ (if q.length > 2000 then
    [⟨"research_query", "Research query must not exceed 2000 characters", "too_big"⟩] else [])
  ++ (if q.data.any (fun c => c == '<' || c == '>') then
    [⟨"research_query", "Research query cannot contain HTML/XML tags", "invalid_string"⟩] else [])
  ++ (if (trimJs q.data).length < 10 then
    [⟨"research_query", "Research query must contain meaningful content", "custom"⟩] else [])

/-- Issues raised by `AccuracyLevelSchema`. -/
def accuracyIssues (s : String) : List ValidationError :=
  if s = "high" ∨ s = "medium" then []
  else [⟨"accuracy_level", "Accuracy level must be either 'high' or 'medium'", "invalid_enum_value"⟩]

/-- Value produced by `AccuracyLevelSchema` when it raises no issue. -/
def accuracyValue (s : String) : AccuracyLevel :=
  if s = "high" then .high else .medium

/-- Issues raised by `MaxTokensSchema.optional()`: an absent value
passes; a present value must lie in [500, 8000].  The model keeps the
field integral, so the `.int()` check never fires. -/
def maxTokensIssues (mt : Option Int) : List ValidationError :=
  match mt with
  | none => []
  | some n =>
    (if n < 500 then [⟨"max_tokens", "Max tokens must be at least 500", "too_small"⟩] else [])
    ++ (if n > 8000 then [⟨"max_tokens", "Max tokens cannot exceed 8000", "too_big"⟩] else [])

/-- Issues raised by `TemperatureSchema.optional()`. -/
def temperatureIssues (t : Option ℚ) : List ValidationError :=
  match t with
  | none => []
  | some v =>
    (if v < 0 then [⟨"temperature", "Temperature must be at least 0", "too_small"⟩] else [])
    ++ (if v > 1 then [⟨"temperature", "Temperature cannot exceed 1", "too_big"⟩] else [])

/-- Issues raised by `ResponseFormatSchema` (an absent value takes the
default). -/
def responseFormatIssues (s : Option String) : List ValidationError :=
  match s with
  | none => []
  | some v =>
    if v = "comprehensive" ∨ v = "summary" ∨ v = "bullet_points" then []
    else [⟨"response_format", "Response format must be 'comprehensive', 'summary', or 'bullet_points'", "invalid_enum_value"⟩]

/-- Embeds `DoDeepResearchSchema.parse`: collect the issues of every
field (in shape order); when none arise, build the validated request,
applying the `include_sources` and `response_format` defaults. -/
def zodParse (r : RawRequest) : Except (List ValidationError) DoDeepResearchRequest :=
  let issues := researchQueryIssues r.research_query
    ++ accuracyIssues r.accuracy_level
    ++ maxTokensIssues r.max_tokens
    ++ temperatureIssues r.temperature
    ++ responseFormatIssues r.response_format
  if issues = [] then
    .ok { research_query := r.research_query
          accuracy_level := accuracyValue r.accuracy_level
          max_tokens := r.max_tokens
          temperature := r.temperature
          include_sources := r.include_sources.getD true
          response_format := r.response_format.getD "comprehensive" }
  else .error issues

/-- Embeds `validateBusinessRules` (validation.ts lines 154-198): a
truthy `max_tokens` below 2000 combined with high accuracy is an error,
and a present temperature above 0.5 combined with high accuracy is an
error.  The query-complexity assessment only logs and raises no error. -/
def validateBusinessRules (request : DoDeepResearchRequest) : List ValidationError :=
  (if request.accuracy_level == .high &&
      (match request.max_tokens with
       | some mt => mt != 0 && decide (mt < 2000)
       | none => false) then
    [⟨"max_tokens", "High accuracy research typically requires at least 2000 tokens for quality results", "business_rule"⟩]
  else [])
  ++ (if ((match request.temperature with
          | some t => request.accuracy_level == .high && decide (t > 0.5)
          | none => false) : Bool) then
    [⟨"temperature", "High accuracy research works best with lower temperature (0.5 or less)", "business_rule"⟩]
  else [])

/-- Embeds the `dangerousPatterns` loop of `validateContentSafety`: the
six injection-pattern regexes, tested in order with a break after the
first hit (so at most one security error is pushed). -/
def hasDangerousPattern (q : String) : Bool :=
  let l := q.data
  containsCI "javascript:".data l
  || containsCI "<script".data l
  || containsCI "eval(".data l
  || matchesFunctionLiteral l
  || matchesEventHandler l
  || containsCI "data:text/html".data l
where
  /-- Match of `/function\s*\(/i` at some position of the list. -/
  matchesFunctionLiteral (l : List Char) : Bool :=
    funcAt l || (match l with
      | [] => false
      | _ :: rest => matchesFunctionLiteral rest)
  /-- Anchored match of `/function\s*\(/i`. -/
  funcAt (l : List Char) : Bool :=
    startsWithCI "function".data l &&
    ((l.drop 8).dropWhile isJsWs).head? == some '('
  /-- Match of `/on\w+\s*=/i` at some position of the list. -/
  matchesEventHandler (l : List Char) : Bool :=
    handlerAt l || (match l with
      | [] => false
      | _ :: rest => matchesEventHandler rest)
  /-- Anchored match of `/on\w+\s*=/i`: `on`, one or more word
  characters, optional whitespace, `=`. -/
  handlerAt (l : List Char) : Bool :=
    startsWithCI "on".data l &&
    (let after := l.drop 2
     (List.range (after.takeWhile isWordChar).length).any fun k =>
       ((after.drop (k + 1)).dropWhile isJsWs).head? == some '=')

/-- Characters the special-character check of `validateContentSafety`
considers safe: the class `[a-zA-Z0-9\s.,!?;:()\-'"]`. -/
def isSafeChar (c : Char) : Bool :=
  ('a' ≤ c && c ≤ 'z') || ('A' ≤ c && c ≤ 'Z') || ('0' ≤ c && c ≤ '9') ||
  isJsWs c || c == '.' || c == ',' || c == '!' || c == '?' || c == ';' ||
  c == ':' || c == '(' || c == ')' || c == '-' || c == '\'' || c == '"'

/-- Count of unsafe characters, as matched by the global regex
`[^a-zA-Z0-9\s.,!?;:()\-'"]`. -/
def specialCharCount (q : String) : Nat :=
  (q.data.filter (fun c => !(isSafeChar c))).length

/-- Match of the spam regex `/(.{3,})\1{3,}/`: some block of at least 3
non-line-terminator characters occurs at least 4 times contiguously. -/
def hasExcessiveRepetition (l : List Char) : Bool :=
  (List.range (l.length + 1)).any fun i =>
    (List.range (l.length + 1)).any fun len =>
      3 ≤ len && i + 4 * len ≤ l.length &&
      (let block := (l.drop i).take len
       block.all (fun c => !(isLineTerm c)) &&
       (l.drop (i + len)).take len == block &&
       (l.drop (i + 2 * len)).take len == block &&
       (l.drop (i + 3 * len)).take len == block)

/-- Condition `specialCharCount > query.length * 0.2` of
`validateContentSafety`, stated integrally (both sides scaled by 5) so
that it evaluates in the kernel; the theorem
`tooManySpecialChars_eq_ratio` proves it equal to the source's rational
comparison. -/
def tooManySpecialChars (query : String) : Bool :=
  decide (5 * specialCharCount query > query.data.length)

/-- Embeds `validateContentSafety` (validation.ts lines 203-258): one
security error when an injection pattern matches, a format error when
unsafe characters exceed 20% of the length, a spam error on excessive
repetition; the checks are independent and their errors accumulate. -/
def validateContentSafety (query : String) : List ValidationError :=
  (if hasDangerousPattern query then
    [⟨"research_query", "Research query contains potentially unsafe content", "security"⟩] else [])
  ++ (if tooManySpecialChars query then
    [⟨"research_query", "Research query contains too many special characters", "format"⟩] else [])
  ++ (if hasExcessiveRepetition query.data then
    [⟨"research_query", "Research query contains excessive repetition", "spam"⟩] else [])

/-- Embeds the `ValidationResult` type of `src/types`. -/
inductive ValidationResult where
  | valid (data : DoDeepResearchRequest)
  | invalid (errors : List ValidationError)
deriving DecidableEq, Repr

/-- Embeds `validateResearchRequest` (validation.ts lines 90-149): Zod
schema parse, then business rules, then content safety, returning at
the first failing stage. -/
def validateResearchRequest (r : RawRequest) : ValidationResult :=
  match zodParse r with
  | .error errs => .invalid errs
  | .ok validated =>
    let businessErrors := validateBusinessRules validated
    if businessErrors ≠ [] then .invalid businessErrors
    else
      let safetyErrors := validateContentSafety validated.research_query
      if safetyErrors ≠ [] then .invalid safetyErrors
      else .valid validated

/-- Is the result the valid branch? -/
def ValidationResult.isOkResult : ValidationResult → Bool
  | .valid _ => true
  | .invalid _ => false

/-- Does an invalid result carry an error with the given field and
code? -/
def ValidationResult.hasError (r : ValidationResult) (f c : String) : Bool :=
  match r with
  | .valid _ => false
  | .invalid errs => errs.any (fun e => e.field == f && e.code == c)

/-- Embeds the `output_tokens_details` usage sub-object of the external
response. -/
structure OutputTokensDetails where
  reasoning_tokens : Option Nat
deriving DecidableEq, Repr

/-- Embeds the `usage` object of the external response; absent
numeric fields are `none` (JavaScript `undefined`). -/
structure ResponseUsage where
  input_tokens : Option Nat
  output_tokens : Option Nat
  total_tokens : Option Nat
  output_tokens_details : Option OutputTokensDetails
deriving DecidableEq, Repr

/-- Embeds one entry of a message item's `content` array in the
external response. -/
structure ResponseContentItem where
  type : String
  text : Option String
deriving DecidableEq, Repr

/-- Embeds one entry of the external response's `output` array. -/
structure ResponseOutputItem where
  type : String
  content : Option (List ResponseContentItem)
deriving DecidableEq, Repr

/-- Embeds the external (OpenAI Responses API) response, keeping the
fields `performDeepResearch` inspects.  A `none` field is an absent
(`undefined` / non-array) field. -/
structure ExtResponse where
  status : String
  output_text : Option String
  output : Option (List ResponseOutputItem)
  text : Option String
  content : Option String
  usage : Option ResponseUsage
deriving DecidableEq, Repr

/-- Inner loop of extraction method 2: the first content item whose
type is `output_text` or `text` and whose `text` field is a non-empty
string. -/
def contentItemText : List ResponseContentItem → Option String
  | [] => none
  | item :: rest =>
    match item.text with
    | some t => if (item.type = "output_text" ∨ item.type = "text") ∧ t ≠ "" then some t
                else contentItemText rest
    | none => contentItemText rest

/-- Outer loop of extraction method 2: scan the output items for the
first `message` item with a content array yielding text. -/
def outputMessageText : List ResponseOutputItem → Option String
  | [] => none
  | item :: rest =>
    if item.type = "message" then
      match item.content with
      | some cs =>
        match contentItemText cs with
        | some t => some t
        | none => outputMessageText rest
      | none => outputMessageText rest
    else outputMessageText rest

/-- Embeds extraction methods 1-3 of `performDeepResearch`
(openai-client.ts lines 153-243): the `output_text` convenience field
(trimmed), then the message items of the `output` array, then the
top-level `text` / `content` fallbacks.  Returns `""` when no method
yields text. -/
def extractRawContent (response : ExtResponse) : String :=
  let c1 : String :=
    match response.output_text with
    | some s => if s ≠ "" ∧ trimJs s.data ≠ [] then ⟨trimJs s.data⟩ else ""
    | none => ""
  let c2 : String :=
    if c1 = "" then
      match response.output with
      | some items => if items ≠ [] then (outputMessageText items).getD "" else ""
      | none => ""
    else c1
  if c2 = "" then
    if response.text.getD "" ≠ "" then response.text.getD ""
    else if response.content.getD "" ≠ "" then response.content.getD ""
    else ""
  else c2

/-- Diagnostic placeholder built by the final extraction fallback when
tokens were generated but no text could be extracted. -/
def parsingErrorText (tokenCount : Nat) (keys : String) : String :=
  "[Content parsing error: OpenAI generated " ++ toString tokenCount ++
  " tokens but content extraction failed. Response structure: " ++ keys ++ "]"

/-- Keys of the modelled response fields that are present, standing in
for `Object.keys(response)`. -/
def responseKeys (r : ExtResponse) : List String :=
  ["status"]
  ++ (if r.output_text.isSome then ["output_text"] else [])
  ++ (if r.output.isSome then ["output"] else [])
  ++ (if r.text.isSome then ["text"] else [])
  ++ (if r.content.isSome then ["content"] else [])
  ++ (if r.usage.isSome then ["usage"] else [])

/-- Renders a key list the way `JSON.stringify(keys, null, 2)` does. -/
def jsonKeyArray (keys : List String) : String :=
  match keys with
  | [] => "[]"
  | _ => "[\n" ++ String.intercalate ",\n" (keys.map (fun k => "  \"" ++ k ++ "\"")) ++ "\n]"

/-- Fuel-indexed worker for `countCitations`. -/
def countCitationsFuel : Nat → List Char → Nat
  | 0, _ => 0
  | _, [] => 0
  | fuel + 1, c :: rest =>
    if c = '[' then
      let ds := rest.takeWhile Char.isDigit
      if ds ≠ [] ∧ (rest.drop ds.length).head? = some ']' then
        1 + countCitationsFuel fuel (rest.drop (ds.length + 1))
      else countCitationsFuel fuel rest
    else countCitationsFuel fuel rest

/-- Embeds `extractSourceCount`: the number of matches of the global
regex `\[\d+\]` (a bracketed run of digits; on a failed match the scan
advances one character). -/
def countCitations (l : List Char) : Nat := countCitationsFuel l.length l

/-- Embeds `getModelForAccuracy`. -/
def getModelForAccuracy : AccuracyLevel → String
  | .high => "o3-deep-research"
  | .medium => "o4-mini-deep-research"

/-- Embeds `calculateConfidence`. -/
def calculateConfidence (accuracyLevel : AccuracyLevel) (sourcesFound : Nat) : ℚ :=
  let baseConfidence : ℚ := if accuracyLevel = .high then 0.85 else 0.75
  let sourceBonus : ℚ := min ((sourcesFound : ℚ) * 0.02) 0.15
  min (baseConfidence + sourceBonus) 1.0

/-- Embeds the `CostInfo` record of `src/types`. -/
structure CostInfo where
  estimated_cost_usd : ℚ
  cost_per_1k_tokens : ℚ
  billing_tier : String
deriving DecidableEq, Repr

/-- Rounding performed by `parseFloat(x.toFixed(4))`: round to the
nearest multiple of 1/10000, ties away from the smaller value. -/
def toFixed4 (q : ℚ) : ℚ := ((round (q * 10000) : ℤ) : ℚ) / 10000

/-- Embeds `calculateCosts` (openai-client.ts lines 541-599): the cost
table (0.02 per 1K tokens for high, 0.006 for medium), the
`usage?.total_tokens || 0` extraction, the cost formula and the
4-decimal rounding; `billing_tier` is `premium` for high and
`standard` for medium. -/
def calculateCosts (accuracyLevel : AccuracyLevel) (usage : Option ResponseUsage) : CostInfo :=
  let costPerToken : AccuracyLevel → ℚ := fun l =>
    match l with
    | .high => 0.02
    | .medium => 0.006
  let totalTokens : ℚ := (((usage.bind (·.total_tokens)).getD 0 : Nat) : ℚ)
  let estimatedCost : ℚ := (totalTokens / 1000) * costPerToken accuracyLevel
  { estimated_cost_usd := toFixed4 estimatedCost
    cost_per_1k_tokens := costPerToken accuracyLevel
    billing_tier := if accuracyLevel = .high then "premium" else "standard" }

/-- Embeds the `token_usage` record assembled into the final
response. -/
structure TokenUsage where
  input_tokens : Nat
  output_tokens : Nat
  total_tokens : Nat
deriving DecidableEq, Repr

/-- Embeds the fields of `DoDeepResearchResponse` that the claims
constrain, as assembled by `performDeepResearch` (openai-client.ts
lines 289-317).  Housekeeping fields whose values are time- or
formatting-dependent (executive summary, related topics, limitations,
request id, timestamp, raw output echo) are not modelled. -/
structure DoDeepResearchResponse where
  research_results : String
  model_used : String
  accuracy_level : AccuracyLevel
  source_quality_score : Nat
  rate_limit_remaining : Nat
  sources_found : Nat
  research_confidence : ℚ
  coverage_completeness : ℚ
  recency_score : ℚ
  token_usage : TokenUsage
  cost_info : CostInfo
deriving DecidableEq, Repr

/-- Message of the error thrown when the external response reports
status `incomplete` (openai-client.ts line 128). -/
def incompleteStatusMessage (response : ExtResponse) : String :=
  "OpenAI Deep Research response incomplete. The model is still processing your request. Please try again in a few moments. Status: "
  ++ response.status ++ ", Reasoning tokens used: "
  ++ toString (((response.usage.bind (·.output_tokens_details)).bind (·.reasoning_tokens)).getD 0)

/-- Embeds `performDeepResearch` (openai-client.ts lines 63-340),
parameterised by the response the single external call returns.  An
incomplete status fails immediately (no polling); the thrown error is
re-wrapped by the method's catch block with the prefix
`OpenAI Deep Research failed: `.  Otherwise content is extracted (with
the diagnostic / no-content fallbacks), costs are computed, and the
response object is assembled. -/
def performDeepResearch (request : DoDeepResearchRequest) (response : ExtResponse) :
    Except String DoDeepResearchResponse :=
  if response.status = "incomplete" then
    .error ("OpenAI Deep Research failed: " ++ incompleteStatusMessage response)
  else
    let rawContent := extractRawContent response
    let content :=
      if rawContent = "" ∨ trimJs rawContent.data = [] then
        let tokenCount := (response.usage.bind (·.output_tokens)).getD 0
        if tokenCount > 0 then parsingErrorText tokenCount (jsonKeyArray (responseKeys response))
        else "No content returned from OpenAI"
      else rawContent
    let sourcesFound := countCitations content.data
    .ok { research_results := content
          model_used := getModelForAccuracy request.accuracy_level
          accuracy_level := request.accuracy_level
          source_quality_score := 85
          rate_limit_remaining := 100
          sources_found := sourcesFound
          research_confidence := calculateConfidence request.accuracy_level sourcesFound
          coverage_completeness := 0.85
          recency_score := 0.9
          token_usage :=
            match response.usage with
            | some u => { input_tokens := u.input_tokens.getD 0
                          output_tokens := u.output_tokens.getD 0
                          total_tokens := u.total_tokens.getD 0 }
            | none => { input_tokens := 0, output_tokens := 0, total_tokens := 0 }
          cost_info := calculateCosts request.accuracy_level response.usage }

/-- Embeds the JSON failure/success envelope serialised by
`handleDeepResearchRequest`; fields absent from a branch are `none`. -/
structure ResponseEnvelope where
  success : Bool
  error : Option String
  error_type : Option String
  request_id : String
  research_results : Option String
  rate_limit_remaining : Option Nat
deriving DecidableEq, Repr

/-- Result of one handler run: the envelope plus the number of times
the handler invoked the Research Client and the Rate Limiter on that
path (the handler code contains no rate-limiter call on any path). -/
structure HandlerResult where
  envelope : ResponseEnvelope
  researchClientCalls : Nat
  rateLimiterCalls : Nat
deriving DecidableEq, Repr

/-- Embeds `handleDeepResearchRequest` (mcp-server.ts lines 138-284),
parameterised by the generated request id and by the response the
external call would return: validate, sanitize, call the client, and
map any failure to a structured envelope.  The success branch reports
the constant `rate_limit_remaining: 100` (source comment: rate
limiting removed). -/
def handleDeepResearchRequest (requestId : String) (request : RawRequest)
    (response : ExtResponse) : HandlerResult :=
  match validateResearchRequest request with
  | .invalid errs =>
    { envelope := { success := false
                    error := some ("Request validation failed: " ++
                      String.intercalate ", " (errs.map (fun e => e.field ++ ": " ++ e.message)))
                    error_type := some "validation_error"
                    request_id := requestId
                    research_results := none
                    rate_limit_remaining := none }
      researchClientCalls := 0
      rateLimiterCalls := 0 }
  | .valid validated =>
    let sanitizedQuery := sanitizeQuery validated.research_query
    let researchRequest := { validated with research_query := sanitizedQuery }
    match performDeepResearch researchRequest response with
    | .error msg =>
      { envelope := { success := false
                      error := some msg
                      error_type := some "internal_error"
                      request_id := requestId
                      research_results := none
                      rate_limit_remaining := none }
        researchClientCalls := 1
        rateLimiterCalls := 0 }
    | .ok result =>
      { envelope := { success := true
                      error := none
                      error_type := none
                      request_id := requestId
                      research_results := some result.research_results
                      rate_limit_remaining := some 100 }
        researchClientCalls := 1
        rateLimiterCalls := 0 }

/-- Embeds the `RateLimitConfig` record; numeric environment values
are naturals / rationals. -/
structure RateLimitConfig where
  requests_per_hour : Nat
  requests_per_day : Nat
  tokens_per_day : Nat
  daily_cost_limit_usd : ℚ
  high_accuracy_daily_limit : Nat
  medium_accuracy_daily_limit : Nat
deriving DecidableEq, Repr

/-- Embeds the per-client `ClientUsage` record of the rate limiter.
The shared `requestCounts` map (time-window key to accumulated
number) is modelled as a total function defaulting to 0, matching the
`map.get(key) || 0` reads. -/
structure ClientUsage where
  requestCounts : String → ℚ
  totalCost : ℚ
  lastRequestTime : Nat

/-- Client-usage table of a `ResearchRateLimiter` instance. -/
def RateLimiterState := String → Option ClientUsage

/-- Fresh limiter: no client usage recorded. -/
def emptyLimiterState : RateLimiterState := fun _ => none

/-- Usage record created on first contact with a client. -/
def newClientUsage (now : Nat) : ClientUsage :=
  { requestCounts := fun _ => 0, totalCost := 0, lastRequestTime := now }

/-- Pointwise update of a request-count map. -/
def setCount (m : String → ℚ) (key : String) (v : ℚ) : String → ℚ :=
  fun k => if k = key then v else m k

/-- Key of the current hour bucket. -/
def hourKey (currentHour : Nat) : String := "hour:" ++ toString currentHour

/-- Key of the per-level daily request bucket. -/
def dayKey (currentDay : Nat) (accuracyLevel : AccuracyLevel) : String :=
  "day:" ++ toString currentDay ++ ":" ++
    (match accuracyLevel with | .high => "high" | .medium => "medium")

/-- Key of the daily cost bucket. -/
def costKey (currentDay : Nat) : String := "cost:" ++ toString currentDay

/-- Embeds `getHourlyLimit` (validation.ts lines 894-898): despite its
name it reads the per-level DAILY limit configuration, falling back to
3 (high) / 6 (medium) when the configured value is falsy. -/
def getHourlyLimit (config : RateLimitConfig) : AccuracyLevel → Nat
  | .high => if config.high_accuracy_daily_limit = 0 then 3 else config.high_accuracy_daily_limit
  | .medium => if config.medium_accuracy_daily_limit = 0 then 6 else config.medium_accuracy_daily_limit

/-- Embeds `getDailyLimit` (validation.ts lines 903-907). -/
def getDailyLimit (config : RateLimitConfig) : AccuracyLevel → Nat
  | .high => if config.high_accuracy_daily_limit = 0 then 8 else config.high_accuracy_daily_limit
  | .medium => if config.medium_accuracy_daily_limit = 0 then 15 else config.medium_accuracy_daily_limit

/-- Embeds the `RateLimitResult` record. -/
structure RateLimitResult where
  allowed : Bool
  reason : Option String
  remaining : ℚ
  retryAfter : Nat
  costRemaining : ℚ
deriving DecidableEq, Repr

/-- Embeds `checkRateLimit` (validation.ts lines 642-747), with the
current clock passed explicitly: hourly-count check first, then the
projected-daily-cost check (skipped for an absent or zero estimate,
matching the truthiness test), then the per-level daily-count check;
otherwise allow, reserving one slot in the reported remainder. -/
def checkRateLimit (config : RateLimitConfig) (state : RateLimiterState)
    (clientId : String) (accuracyLevel : AccuracyLevel)
    (estimatedCost : Option ℚ) (now : Nat) : RateLimitResult :=
  let currentHour := now / 3600000
  let currentDay := now / 86400000
  let usage := (state clientId).getD (newClientUsage now)
  let hourlyRequests := usage.requestCounts (hourKey currentHour)
  let hourlyLimit := getHourlyLimit config accuracyLevel
  if hourlyRequests ≥ (hourlyLimit : ℚ) then
    { allowed := false
      reason := some "hourly_limit"
      remaining := 0
      retryAfter := (currentHour + 1) * 3600000
      costRemaining := config.daily_cost_limit_usd - usage.totalCost }
  else
    let dailyCost := usage.requestCounts (costKey currentDay)
    if ((match estimatedCost with
         | some ec => ec != 0 && decide (dailyCost + ec > config.daily_cost_limit_usd)
         | none => false) : Bool) then
      { allowed := false
        reason := some "cost_limit"
        remaining := (hourlyLimit : ℚ) - hourlyRequests
        retryAfter := (currentDay + 1) * 86400000
        costRemaining := max 0 (config.daily_cost_limit_usd - dailyCost) }
    else
      let dailyRequests := usage.requestCounts (dayKey currentDay accuracyLevel)
      let dailyLimit := getDailyLimit config accuracyLevel
      if dailyRequests ≥ (dailyLimit : ℚ) then
        { allowed := false
          reason := some "daily_limit"
          remaining := 0
          retryAfter := (currentDay + 1) * 86400000
          costRemaining := max 0 (config.daily_cost_limit_usd - dailyCost) }
      else
        { allowed := true
          reason := none
          remaining := min ((hourlyLimit : ℚ) - hourlyRequests - 1)
                          ((dailyLimit : ℚ) - dailyRequests - 1)
          retryAfter := (currentHour + 1) * 3600000
          costRemaining := max 0 (config.daily_cost_limit_usd - dailyCost) }

/-- Embeds `recordRequest` (validation.ts lines 752-809), with the
current clock passed explicitly: bump the hour bucket, the per-level
day bucket and the day cost bucket of the client (creating its usage
record if absent), and accumulate the total cost. -/
def recordRequest (state : RateLimiterState) (clientId : String)
    (accuracyLevel : AccuracyLevel) (actualCost : ℚ) (_tokensUsed : Nat)
    (now : Nat) : RateLimiterState :=
  let currentHour := now / 3600000
  let currentDay := now / 86400000
  let usage := (state clientId).getD (newClientUsage now)
  let rc1 := setCount usage.requestCounts (hourKey currentHour)
    (usage.requestCounts (hourKey currentHour) + 1)
  let rc2 := setCount rc1 (dayKey currentDay accuracyLevel)
    (rc1 (dayKey currentDay accuracyLevel) + 1)
  let rc3 := setCount rc2 (costKey currentDay)
    (rc2 (costKey currentDay) + actualCost)
  fun cid =>
    if cid = clientId then
      some { requestCounts := rc3
             totalCost := usage.totalCost + actualCost
             lastRequestTime := now }
    else state cid

/-- Does the `Except` returned by the research client hold a success
value? -/
def exceptIsOk : Except String DoDeepResearchResponse → Bool
  | .ok _ => true
  | .error _ => false

/-- Research-result text of a client result, when it succeeded. -/
def getResearchOutput : Except String DoDeepResearchResponse → Option String
  | .ok res => some res.research_results
  | .error _ => none

/-- Hour-bucket count currently recorded for a client. -/
def hourCountOf (state : RateLimiterState) (clientId : String) (h : Nat) : ℚ :=
  match state clientId with
  | some u => u.requestCounts (hourKey h)
  | none => 0

/-- Concrete request whose query is the injection example
`<script>alert(1)</script>`. -/
def scriptTagRequest : RawRequest :=
  { research_query := "<script>alert(1)</script>", accuracy_level := "medium",
    max_tokens := none, temperature := none, include_sources := none, response_format := none }

/-- Concrete request whose bracket-free query matches the `eval(`
injection pattern. -/
def evalPatternRequest : RawRequest :=
  { research_query := "please eval(this) for me now", accuracy_level := "medium",
    max_tokens := none, temperature := none, include_sources := none, response_format := none }

/-- Parse result of `evalPatternRequest`. -/
def evalPatternParsed : DoDeepResearchRequest :=
  { research_query := "please eval(this) for me now", accuracy_level := .medium,
    max_tokens := none, temperature := none, include_sources := true,
    response_format := "comprehensive" }

/-- Concrete request with a 5-character query. -/
def shortQueryRequest : RawRequest :=
  { research_query := "hello", accuracy_level := "medium", max_tokens := none,
    temperature := none, include_sources := none, response_format := none }

/-- Concrete completed external response with no extractable content
and no usage. -/
def emptyStatusResponse : ExtResponse :=
  { status := "completed", output_text := none, output := none, text := none,
    content := none, usage := none }

/-- Concrete schema-valid request. -/
def validHistoryRequest : RawRequest :=
  { research_query := "a sufficiently long research query about history", accuracy_level := "medium",
    max_tokens := none, temperature := none, include_sources := none, response_format := none }

/-- Concrete external response reporting status `incomplete`. -/
def incompleteResponse : ExtResponse :=
  { status := "incomplete", output_text := none, output := none, text := none,
    content := none, usage := none }

/-- Concrete rate-limit configuration with a high-accuracy limit of 2. -/
def limiterCfg : RateLimitConfig :=
  { requests_per_hour := 10, requests_per_day := 50, tokens_per_day := 100000,
    daily_cost_limit_usd := 25, high_accuracy_daily_limit := 2,
    medium_accuracy_daily_limit := 6 }

/-- Two recorded requests (time, cost, tokens), both in hour bucket 0. -/
def twoRecords : List (Nat × ℚ × Nat) := [(0, 1, 100), (1, 1, 100)]

/-- Concrete high-accuracy request with `max_tokens` 1000. -/
def highTokensRequest : RawRequest :=
  { research_query := "a sufficiently long research query about history",
    accuracy_level := "high", max_tokens := some 1000, temperature := none,
    include_sources := none, response_format := none }

/-- Parse result of `highTokensRequest`. -/
def highTokensParsed : DoDeepResearchRequest :=
  { research_query := "a sufficiently long research query about history",
    accuracy_level := .high, max_tokens := some 1000, temperature := none,
    include_sources := true, response_format := "comprehensive" }

/-- Validated high-accuracy request with `max_tokens` 3000. -/
def highTokens3000Parsed : DoDeepResearchRequest :=
  { research_query := "a sufficiently long research query about history",
    accuracy_level := .high, max_tokens := some 3000, temperature := none,
    include_sources := true, response_format := "comprehensive" }

/-- Concrete high-accuracy request with temperature 0.7. -/
def highTempRequest : RawRequest :=
  { research_query := "a sufficiently long research query about history",
    accuracy_level := "high", max_tokens := none, temperature := some 0.7,
    include_sources := none, response_format := none }

/-- Parse result of `highTempRequest`. -/
def highTempParsed : DoDeepResearchRequest :=
  { research_query := "a sufficiently long research query about history",
    accuracy_level := .high, max_tokens := none, temperature := some 0.7,
    include_sources := true, response_format := "comprehensive" }
theorem tooManySpecialChars_eq_ratio (query : String) :
    tooManySpecialChars query =
      decide ((specialCharCount query : ℚ) > (query.data.length : ℚ) * 0.2) := by
  have h : ((specialCharCount query : ℚ) > (query.data.length : ℚ) * 0.2) ↔
      (5 * specialCharCount query > query.data.length) := by
    rw [gt_iff_lt, gt_iff_lt, show (0.2 : ℚ) = 1 / 5 by norm_num, mul_one_div,
      div_lt_iff₀ (by norm_num : (0 : ℚ) < 5),
      show ((specialCharCount query : ℚ) * 5) = ((5 * specialCharCount query : ℕ) : ℚ) by
        push_cast; ring,
      Nat.cast_lt]
  exact decide_eq_decide.mpr h.symm

/-- Helper: when the schema parse succeeds and some business-rule error
with the given field and code is raised, the validation pipeline
returns an invalid result carrying that error. -/
theorem validateResearchRequest_hasBusinessError (r : RawRequest)
    (v : DoDeepResearchRequest) (f c : String) (hp : zodParse r = .ok v)
    (he : (validateBusinessRules v).any (fun e => e.field == f && e.code == c) = true) :
    (validateResearchRequest r).isOkResult = false ∧
    (validateResearchRequest r).hasError f c = true := by
  have hne : validateBusinessRules v ≠ [] := by
    intro h
    rw [h] at he
    simp at he
  simp only [validateResearchRequest, hp]
  rw [if_pos hne]
  exact ⟨rfl, he⟩

/-- Helper: when the schema parse succeeds, no business rule fires, and
some content-safety error with the given field and code is raised, the
validation pipeline returns an invalid result carrying that error. -/
theorem validateResearchRequest_hasSafetyError (r : RawRequest)
    (v : DoDeepResearchRequest) (f c : String) (hp : zodParse r = .ok v)
    (hbiz : validateBusinessRules v = [])
    (he : (validateContentSafety v.research_query).any (fun e => e.field == f && e.code == c) = true) :
    (validateResearchRequest r).isOkResult = false ∧
    (validateResearchRequest r).hasError f c = true := by
  have hne : validateContentSafety v.research_query ≠ [] := by
    intro h
    rw [h] at he
    simp at he
  simp only [validateResearchRequest, hp, hbiz]
  rw [if_neg (by simp), if_pos hne]
  exact ⟨rfl, he⟩

/-- Claim C1 (counterexample): for the query
`<script>alert(1)</script>` the claim fails — `validateResearchRequest`
does reject the request, but at the Zod schema stage with the HTML-tag
regex error (code `invalid_string`); the result contains no
`ValidationError` with code `security`, because the content-safety
check is never reached for queries containing angle brackets. -/
theorem scriptTag_rejected_without_security_code :
    validateResearchRequest scriptTagRequest =
      .invalid [⟨"research_query", "Research query cannot contain HTML/XML tags", "invalid_string"⟩]
    ∧ (validateResearchRequest scriptTagRequest).hasError "research_query" "security" = false :=
  ⟨by decide, by decide⟩

/-- Claim C1 (amended): for every request that passes the schema parse
and the business rules and whose (schema-valid, hence bracket-free)
query matches one of the injection-pattern regexes,
`validateResearchRequest` returns an invalid result containing a
`ValidationError` with code `security`.  Queries containing angle
brackets (such as `<script>alert(1)</script>`) are instead rejected at
the schema stage with the HTML-tag rule, not with code `security`. -/
theorem validateResearchRequest_security_code (r : RawRequest) (v : DoDeepResearchRequest)
    (hp : zodParse r = .ok v) (hbiz : validateBusinessRules v = [])
    (hd : hasDangerousPattern v.research_query = true) :
    (validateResearchRequest r).isOkResult = false ∧
    (validateResearchRequest r).hasError "research_query" "security" = true := by
  apply validateResearchRequest_hasSafetyError r v _ _ hp hbiz
  simp [validateContentSafety, hd]

/-- Witness for the amended C1 theorem at a concrete query matching the
`eval(` pattern. -/
theorem validateResearchRequest_security_code_witness :
    (validateResearchRequest evalPatternRequest).isOkResult = false ∧
    (validateResearchRequest evalPatternRequest).hasError "research_query" "security" = true :=
  validateResearchRequest_security_code evalPatternRequest evalPatternParsed
    rfl (by decide) (by decide)

/-- Claim C2 (counterexample): `sanitizeQuery` is not idempotent.  For
the input `javasjavascript:cript:`, removing the inner `javascript:`
occurrence splices the surrounding characters into a fresh
`javascript:`, which only a second pass removes. -/
theorem sanitizeQuery_not_idempotent :
    sanitizeQuery "javasjavascript:cript:" = "javascript:"
    ∧ sanitizeQuery (sanitizeQuery "javasjavascript:cript:") = ""
    ∧ sanitizeQuery (sanitizeQuery "javasjavascript:cript:") ≠ sanitizeQuery "javasjavascript:cript:" :=
  ⟨by decide, by decide, by decide⟩

/-- Claim C2 (amended): `sanitizeQuery` is idempotent exactly on those
inputs whose first sanitization is already a fixed point of every
cleaning step — no remaining tag match, no remaining `javascript:` or
`data:text/html` occurrence, already trimmed and whitespace-collapsed,
and within the 2000-character bound. -/
theorem sanitizeQuery_idempotent_of_fixed (x : String)
    (h1 : removeTags (sanitizeQuery x).data = (sanitizeQuery x).data)
    (h2 : replaceAllCI "javascript:".data (sanitizeQuery x).data = (sanitizeQuery x).data)
    (h3 : replaceAllCI "data:text/html".data (sanitizeQuery x).data = (sanitizeQuery x).data)
    (h4 : trimJs (sanitizeQuery x).data = (sanitizeQuery x).data)
    (h5 : collapseWs (sanitizeQuery x).data = (sanitizeQuery x).data)
    (h6 : (sanitizeQuery x).data.length ≤ 2000) :
    sanitizeQuery (sanitizeQuery x) = sanitizeQuery x := by
  show (⟨(collapseWs (trimJs (replaceAllCI "data:text/html".data
    (replaceAllCI "javascript:".data (removeTags (sanitizeQuery x).data))))).take 2000⟩ : String)
    = sanitizeQuery x
  rw [h1, h2, h3, h4, h5, List.take_of_length_le h6]

/-- Witness for the amended C2 theorem at the input `hello world`. -/
theorem sanitizeQuery_idempotent_of_fixed_witness :
    (removeTags (sanitizeQuery "hello world").data = (sanitizeQuery "hello world").data
     ∧ replaceAllCI "javascript:".data (sanitizeQuery "hello world").data = (sanitizeQuery "hello world").data
     ∧ replaceAllCI "data:text/html".data (sanitizeQuery "hello world").data = (sanitizeQuery "hello world").data
     ∧ trimJs (sanitizeQuery "hello world").data = (sanitizeQuery "hello world").data
     ∧ collapseWs (sanitizeQuery "hello world").data = (sanitizeQuery "hello world").data
     ∧ (sanitizeQuery "hello world").data.length ≤ 2000)
    ∧ sanitizeQuery (sanitizeQuery "hello world") = sanitizeQuery "hello world" :=
  ⟨⟨by decide, by decide, by decide, by decide, by decide, by decide⟩,
   sanitizeQuery_idempotent_of_fixed "hello world"
     (by decide) (by decide) (by decide) (by decide) (by decide) (by decide)⟩

/-- Helper: an anchored case-sensitive match survives appending on the
right. -/
theorem startsWithCS_append (pat a b : List Char) (h : startsWithCS pat a = true) :
    startsWithCS pat (a ++ b) = true := by
  induction pat generalizing a with
  | nil => simp [startsWithCS]
  | cons p ps ih =>
    cases a with
    | nil => simp [startsWithCS] at h
    | cons c cs =>
      simp only [startsWithCS, List.cons_append, Bool.and_eq_true] at h ⊢
      exact ⟨h.1, ih cs h.2⟩

/-- Helper: a substring of the left part is a substring of the
concatenation. -/
theorem containsCS_append_left (pat a b : List Char) (h : containsCS pat a = true) :
    containsCS pat (a ++ b) = true := by
  induction a with
  | nil =>
    cases pat with
    | nil => cases b <;> simp [containsCS, startsWithCS]
    | cons p ps => simp [containsCS, startsWithCS] at h
  | cons c cs ih =>
    simp only [containsCS, List.cons_append, Bool.or_eq_true] at h ⊢
    cases h with
    | inl h => exact Or.inl (startsWithCS_append _ _ _ h)
    | inr h => exact Or.inr (ih h)

/-- Helper: a substring of the right part is a substring of the
concatenation. -/
theorem containsCS_append_right (pat a b : List Char) (h : containsCS pat b = true) :
    containsCS pat (a ++ b) = true := by
  induction a with
  | nil => simpa
  | cons c cs ih =>
    simp only [containsCS, List.cons_append, Bool.or_eq_true]
    exact Or.inr ih

/-- Claim C3: for every valid request whose external call returns a
response with status `incomplete`, `performDeepResearch` fails
immediately (no success result for any request), and the handler
returns a failure envelope with `success: false`, error type
`internal_error`, and an error message containing the retry guidance
`try again` — never a success response. -/
theorem handler_incomplete_fails (requestId : String) (r : RawRequest) (response : ExtResponse)
    (hvalid : (validateResearchRequest r).isOkResult = true)
    (hstatus : response.status = "incomplete") :
    (∀ req : DoDeepResearchRequest, exceptIsOk (performDeepResearch req response) = false)
    ∧ (handleDeepResearchRequest requestId r response).envelope.success = false
    ∧ (handleDeepResearchRequest requestId r response).envelope.error_type = some "internal_error"
    ∧ containsCS "try again".data
        (((handleDeepResearchRequest requestId r response).envelope.error.getD "").data) = true := by
  have hfail : ∀ req : DoDeepResearchRequest, performDeepResearch req response =
      .error ("OpenAI Deep Research failed: " ++ incompleteStatusMessage response) := by
    intro req
    simp [performDeepResearch, hstatus]
  cases hv : validateResearchRequest r with
  | invalid errs =>
    rw [hv] at hvalid
    simp [ValidationResult.isOkResult] at hvalid
  | valid v =>
    refine ⟨fun req => by rw [hfail req]; rfl, ?_, ?_, ?_⟩
    · simp [handleDeepResearchRequest, hv, hfail]
    · simp [handleDeepResearchRequest, hv, hfail]
    · simp only [handleDeepResearchRequest, hv, hfail, Option.getD_some]
      rw [String.data_append]
      apply containsCS_append_right
      simp only [incompleteStatusMessage, hstatus, String.data_append]
      apply containsCS_append_left
      apply containsCS_append_left
      apply containsCS_append_left
      decide

/-- Witness for the C3 theorem at a concrete valid request and an
incomplete response. -/
theorem handler_incomplete_fails_witness :
    ((validateResearchRequest validHistoryRequest).isOkResult = true
     ∧ incompleteResponse.status = "incomplete")
    ∧ ((∀ req : DoDeepResearchRequest, exceptIsOk (performDeepResearch req incompleteResponse) = false)
       ∧ (handleDeepResearchRequest "req_w3" validHistoryRequest incompleteResponse).envelope.success = false
       ∧ (handleDeepResearchRequest "req_w3" validHistoryRequest incompleteResponse).envelope.error_type = some "internal_error"
       ∧ containsCS "try again".data
           (((handleDeepResearchRequest "req_w3" validHistoryRequest incompleteResponse).envelope.error.getD "").data) = true) :=
  ⟨⟨by decide, by decide⟩,
   handler_incomplete_fails "req_w3" validHistoryRequest incompleteResponse (by decide) (by decide)⟩

/-- Claim C4: for every request that fails validation, the handler
returns a structured failure envelope with `success: false`, error type
`validation_error` and the echoed request id, and performs zero
invocations of the Research Client and of the Rate Limiter. -/
theorem handler_rejects_without_client_call (requestId : String) (r : RawRequest)
    (response : ExtResponse)
    (hinv : (validateResearchRequest r).isOkResult = false) :
    (handleDeepResearchRequest requestId r response).researchClientCalls = 0
    ∧ (handleDeepResearchRequest requestId r response).rateLimiterCalls = 0
    ∧ (handleDeepResearchRequest requestId r response).envelope.success = false
    ∧ (handleDeepResearchRequest requestId r response).envelope.error_type = some "validation_error"
    ∧ (handleDeepResearchRequest requestId r response).envelope.request_id = requestId := by
  cases hv : validateResearchRequest r with
  | valid v =>
    rw [hv] at hinv
    simp [ValidationResult.isOkResult] at hinv
  | invalid errs =>
    simp [handleDeepResearchRequest, hv]

/-- Witness for the C4 theorem at a request with a 5-character query. -/
theorem handler_rejects_without_client_call_witness :
    (validateResearchRequest shortQueryRequest).isOkResult = false
    ∧ ((handleDeepResearchRequest "req_w4" shortQueryRequest emptyStatusResponse).researchClientCalls = 0
       ∧ (handleDeepResearchRequest "req_w4" shortQueryRequest emptyStatusResponse).rateLimiterCalls = 0
       ∧ (handleDeepResearchRequest "req_w4" shortQueryRequest emptyStatusResponse).envelope.success = false
       ∧ (handleDeepResearchRequest "req_w4" shortQueryRequest emptyStatusResponse).envelope.error_type = some "validation_error"
       ∧ (handleDeepResearchRequest "req_w4" shortQueryRequest emptyStatusResponse).envelope.request_id = "req_w4") :=
  ⟨by decide, handler_rejects_without_client_call "req_w4" shortQueryRequest emptyStatusResponse (by decide)⟩

/-- Claim C5: for every accuracy level and usage object,
`calculateCosts` returns `estimated_cost_usd` equal to
`(total_tokens / 1000) * cost_per_1k_tokens` rounded to 4 decimal
places, with billing tier `premium` for high and `standard` for
medium; in particular 5000 total tokens at medium accuracy
(0.006 per 1K tokens) cost exactly 0.0300. -/
theorem calculateCosts_spec :
    (∀ (accuracyLevel : AccuracyLevel) (usage : Option ResponseUsage),
      (calculateCosts accuracyLevel usage).estimated_cost_usd =
        toFixed4 ((((usage.bind (·.total_tokens)).getD 0 : Nat) : ℚ) / 1000 *
          (calculateCosts accuracyLevel usage).cost_per_1k_tokens))
    ∧ (∀ usage, (calculateCosts .high usage).billing_tier = "premium")
    ∧ (∀ usage, (calculateCosts .medium usage).billing_tier = "standard")
    ∧ (calculateCosts .medium (some ⟨none, none, some 5000, none⟩)).cost_per_1k_tokens = 0.006
    ∧ (calculateCosts .medium (some ⟨none, none, some 5000, none⟩)).estimated_cost_usd = 0.03 := by
  refine ⟨fun _ _ => rfl, fun _ => rfl, fun _ => rfl, rfl, ?_⟩
  show toFixed4 ((5000 : ℚ) / 1000 * 0.006) = 0.03
  rw [toFixed4]
  norm_num [round_eq]

/-- Helper: the string keys of distinct bucket kinds never collide. -/
theorem hourKey_ne_dayKey (a b : Nat) (lvl : AccuracyLevel) : hourKey a ≠ dayKey b lvl := by
  intro h
  have h2 := congrArg String.data h
  simp only [hourKey, dayKey, String.data_append] at h2
  simp at h2

/-- Helper: hour keys and cost keys never collide. -/
theorem hourKey_ne_costKey (a b : Nat) : hourKey a ≠ costKey b := by
  intro h
  have h2 := congrArg String.data h
  simp only [hourKey, costKey, String.data_append] at h2
  simp at h2

/-- Helper: recording a request inside hour bucket `H` increments the
client's hour-bucket count by exactly one. -/
theorem recordRequest_hourCount (state : RateLimiterState) (clientId : String)
    (lvl : AccuracyLevel) (cost : ℚ) (tk t H : Nat) (ht : t / 3600000 = H) :
    hourCountOf (recordRequest state clientId lvl cost tk t) clientId H =
      hourCountOf state clientId H + 1 := by
  have hd := hourKey_ne_dayKey H (t / 86400000) lvl
  have hc := hourKey_ne_costKey H (t / 86400000)
  cases hs : state clientId with
  | none => simp [recordRequest, hourCountOf, hs, newClientUsage, setCount, ht, hd, hc]
  | some u => simp [recordRequest, hourCountOf, hs, newClientUsage, setCount, ht, hd, hc]

/-- Helper: folding a batch of recorded requests, all in hour bucket
`H`, adds the batch size to the client's hour-bucket count. -/
theorem foldRecords_hourCount (clientId : String) (lvl : AccuracyLevel) (H : Nat) :
    ∀ (records : List (Nat × ℚ × Nat)) (state : RateLimiterState),
      (∀ rec ∈ records, rec.1 / 3600000 = H) →
      hourCountOf (records.foldl
        (fun st rec => recordRequest st clientId lvl rec.2.1 rec.2.2 rec.1) state) clientId H
        = hourCountOf state clientId H + records.length := by
  intro records
  induction records with
  | nil => intro state _; simp
  | cons rec rest ih =>
    intro state hall
    simp only [List.foldl_cons]
    rw [ih _ (fun r hr => hall r (List.mem_cons_of_mem _ hr)),
      recordRequest_hourCount _ _ _ _ _ _ _ (hall rec (List.mem_cons_self _ _))]
    simp only [List.length_cons]
    push_cast
    ring

/-- Claim C6: for every client and accuracy level, after `recordRequest`
has been called N times within one hour bucket where N equals that
level's hourly limit, the next `checkRateLimit` call for that client in
the same hour returns `allowed: false` with reason `hourly_limit` and
`retryAfter` equal to the start of the next hour — for every estimated
cost and every recorded per-request cost, showing the hourly check is
evaluated before the cost check and the daily-count check. -/
theorem checkRateLimit_hourly_limit (config : RateLimitConfig) (clientId : String)
    (accuracyLevel : AccuracyLevel) (records : List (Nat × ℚ × Nat))
    (estimatedCost : Option ℚ) (now : Nat)
    (hlen : records.length = getHourlyLimit config accuracyLevel)
    (hsame : ∀ rec ∈ records, rec.1 / 3600000 = now / 3600000) :
    (checkRateLimit config (records.foldl
        (fun st rec => recordRequest st clientId accuracyLevel rec.2.1 rec.2.2 rec.1)
        emptyLimiterState) clientId accuracyLevel estimatedCost now).allowed = false
    ∧ (checkRateLimit config (records.foldl
        (fun st rec => recordRequest st clientId accuracyLevel rec.2.1 rec.2.2 rec.1)
        emptyLimiterState) clientId accuracyLevel estimatedCost now).reason = some "hourly_limit"
    ∧ (checkRateLimit config (records.foldl
        (fun st rec => recordRequest st clientId accuracyLevel rec.2.1 rec.2.2 rec.1)
        emptyLimiterState) clientId accuracyLevel estimatedCost now).retryAfter
        = (now / 3600000 + 1) * 3600000 := by
  set st := records.foldl
    (fun st rec => recordRequest st clientId accuracyLevel rec.2.1 rec.2.2 rec.1)
    emptyLimiterState with hst
  have hcount : hourCountOf st clientId (now / 3600000) = (records.length : ℚ) := by
    rw [hst, foldRecords_hourCount clientId accuracyLevel (now / 3600000) records
      emptyLimiterState hsame]
    simp [hourCountOf, emptyLimiterState]
  have husage : ((st clientId).getD (newClientUsage now)).requestCounts (hourKey (now / 3600000))
      = (records.length : ℚ) := by
    rw [← hcount]
    cases hs : st clientId <;> simp [hourCountOf, hs, newClientUsage]
  simp only [checkRateLimit, husage, hlen]
  rw [if_pos (le_refl _)]
  exact ⟨rfl, rfl, rfl⟩

/-- Witness for the C6 theorem: two recorded high-accuracy requests in
hour bucket 0 against a configured high-accuracy limit of 2. -/
theorem checkRateLimit_hourly_limit_witness :
    (twoRecords.length = getHourlyLimit limiterCfg .high
     ∧ ∀ rec ∈ twoRecords, rec.1 / 3600000 = 2 / 3600000)
    ∧ ((checkRateLimit limiterCfg (twoRecords.foldl
          (fun st rec => recordRequest st "client_a" .high rec.2.1 rec.2.2 rec.1)
          emptyLimiterState) "client_a" .high none 2).allowed = false
       ∧ (checkRateLimit limiterCfg (twoRecords.foldl
          (fun st rec => recordRequest st "client_a" .high rec.2.1 rec.2.2 rec.1)
          emptyLimiterState) "client_a" .high none 2).reason = some "hourly_limit"
       ∧ (checkRateLimit limiterCfg (twoRecords.foldl
          (fun st rec => recordRequest st "client_a" .high rec.2.1 rec.2.2 rec.1)
          emptyLimiterState) "client_a" .high none 2).retryAfter = (2 / 3600000 + 1) * 3600000) :=
  ⟨⟨by decide, by decide⟩,
   checkRateLimit_hourly_limit limiterCfg "client_a" .high twoRecords none 2
     (by decide) (by decide)⟩

/-- Helper: the schema and the business rules accept `highTempRequest`
up to the temperature rule; its Zod parse succeeds with the expected
validated request. -/
theorem highTempParse_eq : zodParse highTempRequest = .ok highTempParsed := by
  have h : temperatureIssues (some 0.7) = [] := by
    simp only [temperatureIssues]
    rw [if_neg (by norm_num), if_neg (by norm_num)]
    simp
  simp only [highTempRequest, highTempParsed, zodParse, h]
  rw [if_pos (by decide)]
  rfl

/-- Claim C7: for every schema-valid request with accuracy level `high`
and a present `max_tokens` below 2000, validation fails with a blocking
`max_tokens` business-rule error; with `max_tokens` 3000 that rule
raises no error; and accuracy level `high` combined with a temperature
above 0.5 fails with a blocking `temperature` business-rule error. -/
theorem validateBusinessRules_high_accuracy :
    (∀ (r : RawRequest) (v : DoDeepResearchRequest) (mt : Int),
      zodParse r = .ok v → v.accuracy_level = .high → v.max_tokens = some mt →
      500 ≤ mt → mt < 2000 →
      (validateResearchRequest r).isOkResult = false ∧
      (validateResearchRequest r).hasError "max_tokens" "business_rule" = true)
    ∧ (∀ v : DoDeepResearchRequest, v.accuracy_level = .high → v.max_tokens = some 3000 →
      (validateBusinessRules v).all (fun e => e.field ≠ "max_tokens") = true)
    ∧ (∀ (r : RawRequest) (v : DoDeepResearchRequest) (t : ℚ),
      zodParse r = .ok v → v.accuracy_level = .high → v.temperature = some t → t > 0.5 →
      (validateResearchRequest r).isOkResult = false ∧
      (validateResearchRequest r).hasError "temperature" "business_rule" = true) := by
  refine ⟨?_, ?_, ?_⟩
  · intro r v mt hp hacc hmt h5 h2
    apply validateResearchRequest_hasBusinessError r v _ _ hp
    simp only [validateBusinessRules, hacc, hmt, List.any_append]
    apply (Bool.or_eq_true _ _).mpr
    left
    rw [if_pos (by simp only [beq_self_eq_true, Bool.true_and, Bool.and_eq_true,
      bne_iff_ne, ne_eq, decide_eq_true_eq]; omega)]
    simp
  · intro v hacc hmt
    simp only [validateBusinessRules, hacc, hmt]
    rw [if_neg (by simp)]
    cases v.temperature <;> simp
  · intro r v t hp hacc ht h2
    apply validateResearchRequest_hasBusinessError r v _ _ hp
    simp only [validateBusinessRules, hacc, ht, List.any_append]
    apply (Bool.or_eq_true _ _).mpr
    right
    rw [if_pos (by simp only [beq_self_eq_true, Bool.true_and, decide_eq_true_eq]; exact h2)]
    simp

/-- Witness for the C7 theorem at concrete high-accuracy requests with
`max_tokens` 1000, `max_tokens` 3000, and temperature 0.7. -/
theorem validateBusinessRules_high_accuracy_witness :
    ((validateResearchRequest highTokensRequest).isOkResult = false
     ∧ (validateResearchRequest highTokensRequest).hasError "max_tokens" "business_rule" = true)
    ∧ (validateBusinessRules highTokens3000Parsed).all (fun e => e.field ≠ "max_tokens") = true
    ∧ ((validateResearchRequest highTempRequest).isOkResult = false
     ∧ (validateResearchRequest highTempRequest).hasError "temperature" "business_rule" = true) :=
  ⟨validateBusinessRules_high_accuracy.1 highTokensRequest highTokensParsed 1000
     rfl rfl rfl (by decide) (by decide),
   validateBusinessRules_high_accuracy.2.1 highTokens3000Parsed rfl rfl,
   validateBusinessRules_high_accuracy.2.2 highTempRequest highTempParsed 0.7
     highTempParse_eq rfl rfl (by norm_num)⟩

/-- Helper: the diagnostic extraction placeholder is never the empty
string. -/
theorem parsingErrorText_ne_empty (n : Nat) (keys : String) : parsingErrorText n keys ≠ "" := by
  intro h
  have h2 := congrArg String.data h
  simp only [parsingErrorText, String.data_append] at h2
  rw [List.append_eq_nil, List.append_eq_nil, List.append_eq_nil, List.append_eq_nil] at h2
  exact absurd h2.1.1.1.1 (by decide)

/-- Claim C8: for every non-incomplete external response from which no
extraction method yields (trim-)non-empty text, `performDeepResearch`
still succeeds with a non-empty `research_results` string: the
diagnostic extraction-failure placeholder when output token usage is
nonzero, and the literal no-content placeholder when it is zero —
never a silently empty result. -/
theorem performDeepResearch_empty_extraction (request : DoDeepResearchRequest)
    (response : ExtResponse)
    (hstatus : response.status ≠ "incomplete")
    (hempty : trimJs (extractRawContent response).data = []) :
    getResearchOutput (performDeepResearch request response) =
      some (if (response.usage.bind (·.output_tokens)).getD 0 > 0
            then parsingErrorText ((response.usage.bind (·.output_tokens)).getD 0)
                   (jsonKeyArray (responseKeys response))
            else "No content returned from OpenAI")
    ∧ (getResearchOutput (performDeepResearch request response)).getD "" ≠ "" := by
  have hok : getResearchOutput (performDeepResearch request response) =
      some (if (response.usage.bind (·.output_tokens)).getD 0 > 0
            then parsingErrorText ((response.usage.bind (·.output_tokens)).getD 0)
                   (jsonKeyArray (responseKeys response))
            else "No content returned from OpenAI") := by
    simp only [performDeepResearch]
    rw [if_neg hstatus, if_pos (Or.inr hempty)]
    rfl
  refine ⟨hok, ?_⟩
  rw [hok, Option.getD_some]
  rcases Nat.eq_zero_or_pos ((response.usage.bind (·.output_tokens)).getD 0) with h | h
  · rw [h, if_neg (by omega)]
    decide
  · rw [if_pos h]
    exact parsingErrorText_ne_empty _ _

/-- Witness for the C8 theorem at a completed response with no
extractable content and no usage. -/
theorem performDeepResearch_empty_extraction_witness :
    (emptyStatusResponse.status ≠ "incomplete"
     ∧ trimJs (extractRawContent emptyStatusResponse).data = [])
    ∧ (getResearchOutput (performDeepResearch evalPatternParsed emptyStatusResponse) =
        some (if (emptyStatusResponse.usage.bind (·.output_tokens)).getD 0 > 0
              then parsingErrorText ((emptyStatusResponse.usage.bind (·.output_tokens)).getD 0)
                     (jsonKeyArray (responseKeys emptyStatusResponse))
              else "No content returned from OpenAI")
       ∧ (getResearchOutput (performDeepResearch evalPatternParsed emptyStatusResponse)).getD "" ≠ "") :=
  ⟨⟨by decide, by decide⟩,
   performDeepResearch_empty_extraction evalPatternParsed emptyStatusResponse (by decide) (by decide)⟩

/-- Claim C9: the request handler never invokes `checkRateLimit` or
`recordRequest` on any path (rate limiting is not wired into the
orchestration), and every success response reports the constant
`rate_limit_remaining` of 100. -/
theorem handler_never_rate_limits (requestId : String) (r : RawRequest) (response : ExtResponse) :
    (handleDeepResearchRequest requestId r response).rateLimiterCalls = 0
    ∧ ((handleDeepResearchRequest requestId r response).envelope.success = true →
        (handleDeepResearchRequest requestId r response).envelope.rate_limit_remaining = some 100) := by
  cases hv : validateResearchRequest r with
  | invalid errs => simp [handleDeepResearchRequest, hv]
  | valid v =>
    cases hr : performDeepResearch { v with research_query := sanitizeQuery v.research_query } response with
    | error e => simp [handleDeepResearchRequest, hv, hr]
    | ok res => simp [handleDeepResearchRequest, hv, hr]

/-- Witness for the C9 theorem at a concrete successful request. -/
theorem handler_never_rate_limits_witness :
    (handleDeepResearchRequest "req_w9" validHistoryRequest emptyStatusResponse).rateLimiterCalls = 0
    ∧ (handleDeepResearchRequest "req_w9" validHistoryRequest emptyStatusResponse).envelope.success = true
    ∧ (handleDeepResearchRequest "req_w9" validHistoryRequest emptyStatusResponse).envelope.rate_limit_remaining = some 100 :=
  ⟨(handler_never_rate_limits "req_w9" validHistoryRequest emptyStatusResponse).1,
   by decide,
   (handler_never_rate_limits "req_w9" validHistoryRequest emptyStatusResponse).2 (by decide)⟩

/-- Claim C10: for every client and accuracy level, the hourly limit
used by `checkRateLimit` is the per-accuracy-level DAILY limit
configuration value (`high_accuracy_daily_limit`, defaulting to 3 when
falsy, for high; `medium_accuracy_daily_limit`, defaulting to 6 when
falsy, for medium), and the `requests_per_hour` configuration value is
never consulted by any rate-limit check (`recordRequest` reads no
configuration at all). -/
theorem getHourlyLimit_spec :
    (∀ config : RateLimitConfig,
      getHourlyLimit config .high =
        (if config.high_accuracy_daily_limit = 0 then 3 else config.high_accuracy_daily_limit))
    ∧ (∀ config : RateLimitConfig,
      getHourlyLimit config .medium =
        (if config.medium_accuracy_daily_limit = 0 then 6 else config.medium_accuracy_daily_limit))
    ∧ (∀ (config : RateLimitConfig) (n : Nat) (state : RateLimiterState)
        (clientId : String) (accuracyLevel : AccuracyLevel) (estimatedCost : Option ℚ) (now : Nat),
        checkRateLimit { config with requests_per_hour := n } state clientId accuracyLevel estimatedCost now
          = checkRateLimit config state clientId accuracyLevel estimatedCost now) :=
  ⟨fun _ => rfl, fun _ => rfl, fun _ _ _ _ _ _ _ => rfl⟩
